import Mathlib

/-!
Verification of the wecom-ai-platform polling/triage subsystem.

Shallow embedding of the relevant Python code:
  - `app/services/alert_policy_service.py` (alert level mapping, eligibility
    gate, dedup/escalation state machine),
  - `app/services/polling_service.py` (room state persistence, daily cycle
    rollover, accumulation trigger, anchor resolution, bigram dedup),
  - `app/services/ticket_service.py` (`analyze_complete_llm` fallback shape).

Machine integers are modelled as `Int`/`Nat`, Python floats that only carry
timestamps as `ℚ`, fallible external calls (LLM invocations) as `Except`
values passed in as parameters, and the database rows as explicit structures.
-/

namespace WecomAI

/-! ## Alert policy (`alert_policy_service.py`) -/

/-- Alert levels P0 (most severe) .. P3. The Python code stores these as
strings; every value it ever writes comes from `compute_alert_level`, so the
closed enum is a faithful model. -/
inductive Level
  | P0 | P1 | P2 | P3
deriving DecidableEq, Repr

/-- `_level_rank`: smaller is more severe (`{"P0":0,"P1":1,"P2":2,"P3":3}`). -/
def levelRank : Level → Nat
  | .P0 => 0
  | .P1 => 1
  | .P2 => 2
  | .P3 => 3

/-- `compute_alert_level(severity, risk_score)` from
`alert_policy_service.py` lines 7-16. -/
def compute_alert_level (severity : Option String) (risk_score : Int) : Level :=
  if risk_score ≥ 90 then .P0
  else if severity = some "S4" then .P0
  else if severity = some "S3" then .P1
  else if severity = some "S2" then .P2
  else .P3

/-- The alert-related configuration values read from `settings`. -/
structure AlertSettings where
  dedupP0Seconds : Int
  dedupP1Seconds : Int
  dedupP2Seconds : Int
  minHitsToSend : Int
deriving DecidableEq, Repr

/-- `_dedup_window_seconds(level)`: P0 and P1 have their own windows, every
other level uses the P2 window. -/
def dedup_window_seconds (s : AlertSettings) : Level → Int
  | .P0 => s.dedupP0Seconds
  | .P1 => s.dedupP1Seconds
  | _ => s.dedupP2Seconds

/-- A row of the `alert_events` table, with the fields `should_send_alert`
reads and writes. `none` models SQL NULL / Python `None`; times are seconds
since an arbitrary epoch (a Python `datetime` is always truthy, so
`Option Int` with `some t` for any `t` models the `if latest.last_sent_at:`
truthiness test). -/
structure AlertEvent where
  room_id : String
  alert_level : Option Level
  dedup_key : String
  hit_count : Option Int
  first_seen_at : Int
  last_seen_at : Int
  last_sent_at : Option Int
deriving DecidableEq, Repr

/-- The eligibility gate on line 44:
`is_alert or severity in {"S2","S3","S4"} or (is_bug and risk_score >= 80)`. -/
def alertEligible (severity : Option String) (risk_score : Int)
    (is_alert is_bug : Bool) : Bool :=
  is_alert || severity = some "S2" || severity = some "S3" || severity = some "S4"
    || (is_bug && risk_score ≥ 80)

/-- The upgrade test on line 62:
`latest.alert_level and _level_rank(new) < _level_rank(latest.alert_level)`. -/
def isUpgrade (lvl : Level) (ev : AlertEvent) : Bool :=
  match ev.alert_level with
  | some old => levelRank lvl < levelRank old
  | none => false

/-- Result of one call to `should_send_alert`: the returned triple plus the
state of the stored row for the dedup key after the call (`row = latest`
unchanged when the function returns without touching the database). -/
structure AlertOutcome where
  sent : Bool
  level : Level
  event : Option AlertEvent
  row : Option AlertEvent
deriving DecidableEq, Repr

/-- `should_send_alert` from `alert_policy_service.py` lines 33-113.
`latest` is the most recent `AlertEvent` row matching the dedup keys (the
database query is abstracted into this parameter); `now` is
`datetime.utcnow()` in seconds. -/
def should_send_alert (s : AlertSettings) (now : Int) (room_id : String)
    (severity : Option String) (risk_score : Int) (is_alert is_bug : Bool)
    (latest : Option AlertEvent) : AlertOutcome :=
  let lvl := compute_alert_level severity risk_score
  if ¬ alertEligible severity risk_score is_alert is_bug then
    { sent := false, level := lvl, event := none, row := latest }
  else
    match latest with
    | none =>
      let sentNow := decide (s.minHitsToSend ≤ 1)
      let ev : AlertEvent :=
        { room_id := room_id, alert_level := some lvl, dedup_key := room_id,
          hit_count := some 1, first_seen_at := now, last_seen_at := now,
          last_sent_at := if sentNow then some now else none }
      { sent := ev.last_sent_at.isSome, level := lvl, event := some ev, row := some ev }
    | some ev =>
      if isUpgrade lvl ev then
        let ev1 : AlertEvent :=
          { ev with alert_level := some lvl, last_seen_at := now,
                    hit_count := some (ev.hit_count.getD 1 + 1),
                    last_sent_at := some now, dedup_key := room_id }
        { sent := true, level := lvl, event := some ev1, row := some ev1 }
      else
        match ev.last_sent_at with
        | some t =>
          if now - t < dedup_window_seconds s lvl then
            let ev1 : AlertEvent :=
              { ev with hit_count := some (ev.hit_count.getD 1 + 1),
                        last_seen_at := now, alert_level := some lvl,
                        dedup_key := room_id }
            if ev1.hit_count.getD 1 < s.minHitsToSend then
              { sent := false, level := lvl, event := some ev1, row := some ev1 }
            else
              let ev2 : AlertEvent := { ev1 with last_sent_at := some now }
              { sent := true, level := lvl, event := some ev2, row := some ev2 }
          else
            { sent := false, level := lvl, event := some ev, row := some ev }
        | none =>
          let ev1 : AlertEvent :=
            { ev with hit_count := some (ev.hit_count.getD 0 + 1),
                      last_seen_at := now, alert_level := some lvl,
                      dedup_key := room_id }
          if s.minHitsToSend ≤ ev1.hit_count.getD 0 then
            let ev2 : AlertEvent := { ev1 with last_sent_at := some now }
            { sent := true, level := lvl, event := some ev2, row := some ev2 }
          else
            { sent := false, level := lvl, event := some ev1, row := some ev1 }

/-- Settings with the repository defaults for the dedup windows (7 days) and
`ALERT_MIN_HITS_TO_SEND = 1`. -/
def defaultAlertSettings : AlertSettings :=
  { dedupP0Seconds := 604800, dedupP1Seconds := 604800,
    dedupP2Seconds := 604800, minHitsToSend := 1 }

/-- A stored event that has already reached P0 and was sent at time 0. -/
def p0Event : AlertEvent :=
  { room_id := "r1", alert_level := some .P0, dedup_key := "r1",
    hit_count := some 1, first_seen_at := 0, last_seen_at := 0,
    last_sent_at := some 0 }

/-- The level mapping as the spec states it (spec §4.5, claim C7), written
from the spec words for comparison with `compute_alert_level`. -/
def specLevelMapping (severity : Option String) (risk_score : Int) : Level :=
  if risk_score ≥ 90 then .P0
  else match severity with
    | some "S4" => .P0
    | some "S3" => .P1
    | some "S2" => .P2
    | _ => .P3

/-! ## Accumulation trigger (`polling_service.py` lines 1683-1717) -/

/-- The three settings the trigger reads: `HIGH_RISK_MIN_MESSAGES`,
`ROOM_MIN_MESSAGES_FOR_ANALYZE`, `ROOM_RAW_MIN_MESSAGES_FOR_ANALYZE`. -/
structure TriggerConfig where
  highRiskMin : Int
  roomMin : Int
  rawMin : Int
deriving DecidableEq, Repr

/-- Repository defaults: high-risk minimum 3, effective threshold 5,
raw threshold 15 (`app/core/config.py`). -/
def defaultTriggerConfig : TriggerConfig :=
  { highRiskMin := 3, roomMin := 5, rawMin := 15 }

inductive TriggerReason
  | highRisk | effectiveVolume | rawVolume
deriving DecidableEq, Repr

/-- `_is_in_cooldown(room_id)` (lines 283-286): the last full process time
of the room is less than `ROOM_COOLDOWN_SECONDS` ago. -/
def _is_in_cooldown (now lastFullProcess cooldownSeconds : ℚ) : Bool :=
  now - lastFullProcess < cooldownSeconds

/-- The trigger decision of the polling loop, lines 1703-1717:
high-risk keyword plus the high-risk minimum bypasses cooldown; the two
volume thresholds require the room to be out of cooldown. `none` means no
analysis is triggered. -/
def triggerDecision (cfg : TriggerConfig) (has_high_risk in_cooldown : Bool)
    (pending raw : Int) : Option TriggerReason :=
  if has_high_risk ∧ pending ≥ cfg.highRiskMin then some .highRisk
  else if ¬ in_cooldown ∧ pending ≥ cfg.roomMin then some .effectiveVolume
  else if ¬ in_cooldown ∧ raw ≥ cfg.rawMin then some .rawVolume
  else none

/-- The trigger decision as claim C4 words it, read as ordered cases:
(1) keyword and pending at the high-risk minimum fires high-risk;
(2) in cooldown with no keyword nothing fires; (3) otherwise the volume
thresholds fire. Written from the claim for comparison with
`triggerDecision`. -/
def claimTriggerDecision (cfg : TriggerConfig) (has_high_risk in_cooldown : Bool)
    (pending raw : Int) : Option TriggerReason :=
  if has_high_risk ∧ pending ≥ cfg.highRiskMin then some .highRisk
  else if in_cooldown ∧ ¬ has_high_risk then none
  else if pending ≥ cfg.roomMin then some .effectiveVolume
  else if raw ≥ cfg.rawMin then some .rawVolume
  else none

/-- The corrected trigger decision: any cooldown blocks the volume paths,
whether or not a high-risk keyword is present. -/
def amendedTriggerDecision (cfg : TriggerConfig) (has_high_risk in_cooldown : Bool)
    (pending raw : Int) : Option TriggerReason :=
  if has_high_risk ∧ pending ≥ cfg.highRiskMin then some .highRisk
  else if in_cooldown then none
  else if pending ≥ cfg.roomMin then some .effectiveVolume
  else if raw ≥ cfg.rawMin then some .rawVolume
  else none

/-! ## Room state persistence (`polling_service.py` lines 179-281) -/

/-- The in-memory per-room dict of `_room_state`. `last_processed_at` is a
Python float of seconds (`time.time()`), modelled as `ℚ`; `needs_flush` is
absent until first set, modelled as a `Bool` defaulting to `false`
(`state.get("needs_flush")`). -/
structure RoomState where
  last_msgtime : Int
  pending_count : Int
  raw_pending_count : Int
  last_processed_at : ℚ
  needs_flush : Bool
deriving DecidableEq, Repr

/-- A row of the `room_polling_state` table (`sql_models.py` lines 133-143).
It has no column for `needs_flush` and none for the cooldown dict
`_room_last_full_process`. -/
structure RoomPollingStateRow where
  room_id : String
  last_msgtime : Int
  pending_count : Int
  raw_pending_count : Int
  last_processed_at : Int
deriving DecidableEq, Repr

/-- `_save_room_state` (lines 230-262): writes the four persisted fields,
converting `last_processed_at` to integer milliseconds with
`int(state["last_processed_at"] * 1000)` (truncation; timestamps are
nonnegative, so floor agrees with Python `int`). -/
def _save_room_state (room_id : String) (st : RoomState) : RoomPollingStateRow :=
  { room_id := room_id,
    last_msgtime := st.last_msgtime,
    pending_count := st.pending_count,
    raw_pending_count := st.raw_pending_count,
    last_processed_at := ⌊st.last_processed_at * 1000⌋ }

/-- The per-room part of `_load_all_room_states` (lines 206-213): rebuilds
the in-memory dict from a row. Only four keys are written, so after a reload
`needs_flush` is absent (i.e. `false`), and `_room_last_full_process` (the
cooldown dict) starts empty. -/
def _load_room_state (row : RoomPollingStateRow) : RoomState :=
  { last_msgtime := row.last_msgtime,
    pending_count := row.pending_count,
    raw_pending_count := row.raw_pending_count,
    last_processed_at := (row.last_processed_at : ℚ) / 1000,
    needs_flush := false }

/-! ## Daily cycle rollover (`_check_and_reset_cycle`, lines 117-176) -/

/-- First loop of the rollover (lines 142-147): a room with
`pending_count >= 2 or raw_pending_count >= 5` is marked `needs_flush`. -/
def rolloverMark (st : RoomState) : RoomState :=
  if st.pending_count ≥ 2 ∨ st.raw_pending_count ≥ 5 then
    { st with needs_flush := true }
  else st

/-- Second loop of the rollover (lines 165-169): every room's cursor is
advanced to the new cycle start; rooms not flagged `needs_flush` get both
pending counters zeroed. -/
def rolloverAdvance (cycle_start_ms : Int) (st : RoomState) : RoomState :=
  let st1 := { st with last_msgtime := cycle_start_ms }
  if st1.needs_flush then st1
  else { st1 with pending_count := 0, raw_pending_count := 0 }

/-- The state transformation `_check_and_reset_cycle` performs when the
cycle date has changed (lines 140-175), over the association list modelling
the `_room_state` dict. The Python code runs the mark loop over all rooms
and then the advance loop over all rooms; the per-room composition is the
same because each loop touches one room at a time. Returns the new in-memory
map and the rows written by `_save_all_room_states` (the call site at line
1426 always passes a database session). -/
def _check_and_reset_cycle (cycle_start_ms : Int)
    (states : List (String × RoomState)) :
    List (String × RoomState) × List RoomPollingStateRow :=
  let states1 := states.map fun p => (p.1, rolloverAdvance cycle_start_ms (rolloverMark p.2))
  (states1, states1.map fun p => _save_room_state p.1 p.2)

/-! ## Bigram similarity and issue dedup (`_is_duplicate_issue`, lines 337-460) -/

/-- Python `s.strip()` on a character list: drop leading and trailing
whitespace. -/
def charListTrim (cs : List Char) : List Char :=
  ((cs.dropWhile Char.isWhitespace).reverse.dropWhile Char.isWhitespace).reverse

/-- Python `s.lower()` on a character list. (Python also lowercases
non-ASCII cased letters; the inputs of this subsystem are Chinese and
ASCII, where the two coincide.) -/
def charListLower (cs : List Char) : List Char :=
  cs.map Char.toLower

/-- Python `s.split()`: split on whitespace runs, dropping empty pieces. -/
def pySplitWs (cs : List Char) : List (List Char) :=
  (cs.splitOnP Char.isWhitespace).filter (· ≠ [])

/-- Python `needle in hay` for strings: `needle` occurs as a contiguous
substring of `hay` (the empty needle always occurs). -/
def strContains (needle hay : List Char) : Bool :=
  hay.tails.any fun t => needle.isPrefixOf t

/-- The character class of the stripping regex on line 391. The pattern is
built from two adjacent Python string literals, so the class is
`，。、！？：；"（）()[]` plus `\s` (the double quote appears twice in the
source, the single quotes are the literal delimiters). -/
def isStrippedChar (c : Char) : Bool :=
  c = '，' || c = '。' || c = '、' || c = '！' || c = '？' || c = '：' ||
  c = '；' || c = '"' || c = '（' || c = '）' || c = '(' || c = ')' ||
  c = '[' || c = ']' || c.isWhitespace

/-- `text.lower().strip()` followed by the punctuation/whitespace removal of
line 391, as a character list. -/
def strippedChars (text : String) : List Char :=
  (charListTrim (charListLower text.toList)).filter fun c => ¬ isStrippedChar c

/-- `_extract_bigrams` (lines 386-396): the set of overlapping 2-character
substrings of the stripped text; fewer than 2 characters yields the empty
set (`zip` with the tail is empty exactly then). -/
def _extract_bigrams (text : String) : Finset (Char × Char) :=
  let cs := strippedChars text
  (cs.zip cs.tail).toFinset

/-- Python `max(a, b)` on rationals, written out so it evaluates. -/
def ratMax (a b : ℚ) : ℚ :=
  if a ≤ b then b else a

/-- The similarity computed on lines 421-426:
`max(jaccard, containment)` over the two bigram sets, with the
`if union > 0` / `if min_len > 0` guards (the counts are Python ints). -/
def bigramSimilarity (a b : String) : ℚ :=
  let A := _extract_bigrams a
  let B := _extract_bigrams b
  let overlap := (A ∩ B).card
  let unionCard := (A ∪ B).card
  let minLen := Nat.min A.card B.card
  let jaccard : ℚ := if 0 < unionCard then (overlap : ℚ) / (unionCard : ℚ) else 0
  let containment : ℚ := if 0 < minLen then (overlap : ℚ) / (minLen : ℚ) else 0
  ratMax jaccard containment

/-- A `TicketDraft` row as `_is_duplicate_issue` reads it: the room it was
created in and the `phenomenon` field of its `content` JSON (the empty
string models a missing/empty phenomenon, which Python tests with
`if not old_phenomenon`). -/
structure TicketRec where
  room_id : String
  phenomenon : String
deriving DecidableEq, Repr

/-- `_ai_dedup_check` (lines 294-334). The LLM call is a parameter:
`.ok reply` is the model answer, `.error ()` is any raised exception
(network or model failure). Returns the verdict plus whether the LLM call
was reached. A raised exception is caught and treated as not-duplicate
(fail-open). -/
def _ai_dedup_check (llm : Except Unit String) (new_phenomenon : String)
    (existing_phenomena : List String) : Bool × Bool :=
  if existing_phenomena = [] then (false, false)
  else
    let existing_list :=
      List.intercalate ['\n']
        ((existing_phenomena.filter (· ≠ "")).map fun p => '-' :: ' ' :: p.toList)
    if existing_list = [] then (false, false)
    else
      match llm with
      | .error _ => (false, true)
      | .ok reply =>
        (['Y', 'E', 'S'].isPrefixOf ((charListTrim reply.toList).map Char.toUpper), true)

/-- Stage-A test of the `_is_duplicate_issue` loop body, lines
405-438 — a prior ticket with a nonempty phenomenon, a nonempty bigram set
and similarity at or above the threshold. -/
def stageAHit (threshold : ℚ) (phenomenon : String) (t : TicketRec) : Bool :=
  t.phenomenon ≠ "" && _extract_bigrams t.phenomenon ≠ ∅ &&
    bigramSimilarity phenomenon t.phenomenon ≥ threshold

/-- `_is_duplicate_issue` (lines 337-460). `existing_tickets` is the result
of the scope query (global window or same room + current cycle — both are
database reads abstracted into the parameter); `llm` is the Stage-B
semantic check outcome. Returns `(is_duplicate, stage_b_llm_invoked)`. -/
def _is_duplicate_issue (threshold : ℚ) (room_id : String) (phenomenon : String)
    (existing_tickets : List TicketRec) (llm : Except Unit String) : Bool × Bool :=
  if phenomenon = "" then (false, false)
  else if existing_tickets = [] then (false, false)
  else if _extract_bigrams phenomenon = ∅ then (false, false)
  else if existing_tickets.any (stageAHit threshold phenomenon) then (true, false)
  else
    let same_room := existing_tickets.filter fun t => t.room_id = room_id
    let existing_phenomena := (same_room.map (·.phenomenon)).filter (· ≠ "")
    if existing_phenomena ≠ [] then
      _ai_dedup_check llm phenomenon existing_phenomena
    else (false, false)

/-! ## Anchor resolver (`_find_best_anchor_msg`, lines 601-654) -/

/-- One entry of the `msg_list` the resolver scans, in chronological order
(oldest first). -/
structure MsgEntry where
  msg_id : String
  content : String
deriving DecidableEq, Repr

/-- The candidate score of lines 629-644: quote contained in the candidate
scores `100 + len(quote)`, candidate contained in the quote scores
`80 + len(content)`, otherwise 10 points per shared whitespace-delimited
token of length at least 2. Both arguments are already lowercased by the
caller. -/
def anchorScore (quote_clean content : List Char) : Nat :=
  if strContains quote_clean content then 100 + quote_clean.length
  else if strContains content quote_clean then 80 + content.length
  else
    let common := (pySplitWs quote_clean).toFinset ∩ (pySplitWs content).toFinset
    10 * (common.filter fun w => 2 ≤ w.length).card

/-- The effective score of a candidate in the loop: candidates with empty
(lowercased) content are skipped, which is the same as scoring them 0 since
the running best never goes below 0. -/
def anchorEffScore (quote_clean : List Char) (m : MsgEntry) : Nat :=
  let content := charListLower m.content.toList
  if content = [] then 0 else anchorScore quote_clean content

/-- The scanning loop of lines 620-648, with accumulator
`(best_match, best_score)`; a candidate only replaces the incumbent on a
strictly greater score. -/
def anchorLoop (quote_clean : List Char) :
    List MsgEntry → Option String × Nat → Option String × Nat
  | [], acc => acc
  | m :: rest, acc =>
    anchorLoop quote_clean rest
      (if anchorEffScore quote_clean m > acc.2 then (some m.msg_id, anchorEffScore quote_clean m) else acc)

/-- `_find_best_anchor_msg` (lines 601-654): empty list gives `none`; an
empty or too-short (< 5 chars after strip+lower) quote falls back to the
first (oldest) entry; otherwise the best strictly-improving candidate wins,
falling back to the first entry when no candidate scored above 0. -/
def _find_best_anchor_msg (msg_list : List MsgEntry) (problem_quote : String) :
    Option String :=
  if msg_list = [] then none
  else if problem_quote = "" then (msg_list.head?).map (·.msg_id)
  else
    let quote_clean := charListLower (charListTrim problem_quote.toList)
    if quote_clean.length < 5 then (msg_list.head?).map (·.msg_id)
    else
      match (anchorLoop quote_clean msg_list (none, 0)).1 with
      | some m => some m
      | none => (msg_list.head?).map (·.msg_id)

/-- The candidate score as claim C6 words it: containment in either
direction scores 100 plus the overlap (the length of the contained string),
else 10 per shared token of length at least 2. Written from the claim for
comparison with `anchorScore`. -/
def claimAnchorScore (quote_clean content : List Char) : Nat :=
  if strContains quote_clean content then 100 + quote_clean.length
  else if strContains content quote_clean then 100 + content.length
  else
    let common := (pySplitWs quote_clean).toFinset ∩ (pySplitWs content).toFinset
    10 * (common.filter fun w => 2 ≤ w.length).card

/-- Selection as the claim words it, in explicit argmax form: the highest
score wins, ties go to the earliest candidate, and all-zero scores fall
back to the oldest candidate. Parameterised by the score function so the
claimed scoring (`claimAnchorScore`) and the source scoring (`anchorScore`)
can be plugged in. -/
def argmaxResolve (score : List Char → List Char → Nat) (msg_list : List MsgEntry)
    (problem_quote : String) : Option String :=
  if msg_list = [] then none
  else if problem_quote = "" then (msg_list.head?).map (·.msg_id)
  else
    let quote_clean := charListLower (charListTrim problem_quote.toList)
    if quote_clean.length < 5 then (msg_list.head?).map (·.msg_id)
    else
      let eff := fun m : MsgEntry =>
        if charListLower m.content.toList = [] then 0
        else score quote_clean (charListLower m.content.toList)
      let best := (msg_list.map eff).foldl max 0
      if best = 0 then (msg_list.head?).map (·.msg_id)
      else (msg_list.find? fun m => eff m = best).map (·.msg_id)

/-! ## Complete LLM analysis (`ticket_service.py` lines 665-734) and the
end-of-cycle sweep (`run_end_of_cycle_analysis`, `polling_service.py`
lines 1855-2019) -/

/-- Python `x or default` for an optional string field of the parsed JSON:
`None` and the empty string fall back to the default. -/
def pyOrStr (v : Option String) (default : String) : String :=
  match v with
  | some s => if s = "" then default else s
  | none => default

def VALID_ISSUE_TYPES : List String := ["使用咨询", "问题反馈", "产品需求", "产品缺陷"]

def VALID_PRIORITIES : List String := ["较低", "普通", "紧急", "非常紧急"]

def VALID_PLATFORMS : List String := ["CBS", "客户端", "ROM", "移动端", "其他"]

/-- `normalize_issue_type` (`ticket_service.py` lines 17-21). -/
def normalize_issue_type (issue_type : Option String) : String :=
  match issue_type with
  | some s => if s ∈ VALID_ISSUE_TYPES then s else "问题反馈"
  | none => "问题反馈"

/-- `normalize_priority` (`ticket_service.py` lines 24-28). -/
def normalize_priority (priority : Option String) : String :=
  match priority with
  | some s => if s ∈ VALID_PRIORITIES then s else "普通"
  | none => "普通"

/-- `normalize_platform` (`ticket_service.py` lines 658-662). -/
def normalize_platform (platform : Option String) : String :=
  match platform with
  | some s => if s ∈ VALID_PLATFORMS then s else "其他"
  | none => "其他"

/-- `" ".join(str(text or "").split())`: whitespace runs collapsed to single
spaces, leading/trailing whitespace dropped. -/
def pyNormalizeWs (s : String) : List Char :=
  List.intercalate [' '] (pySplitWs s.toList)

/-- Python `s[:n]` (slicing counts characters). -/
def pyTake (s : String) (n : Nat) : String :=
  ⟨s.toList.take n⟩

/-- Python `s.strip()` at the `String` level. -/
def pyStrip (s : String) : String :=
  ⟨charListTrim s.toList⟩

/-- The fields `analyze_complete_llm` takes from the parsed model JSON via
`data.get(...)` (each may be absent). -/
structure AnalysisRaw where
  issue_type : Option String
  priority : Option String
  phenomenon : Option String
  summary : Option String
  problem_quote : Option String
  first_problem_quote : Option String
  last_discussion_quote : Option String
  platform : Option String
  client_version : Option String
  cbs_version : Option String
  image_id : Option String
deriving DecidableEq, Repr

/-- The dict `analyze_complete_llm` returns. Callers read the two optional
quote fields with `.get(key, "")`, so the fallback dict (which omits them)
is modelled with `""` there. -/
structure Analysis where
  issue_type : String
  priority : String
  phenomenon : String
  summary : String
  problem_quote : String
  first_problem_quote : String
  last_discussion_quote : String
  platform : String
  client_version : String
  cbs_version : String
  image_id : String
deriving DecidableEq, Repr

/-- The placeholder dict returned for empty input and from the `except`
handler (`ticket_service.py` lines 686-697 and 722-734). -/
def fallbackAnalysis : Analysis :=
  { issue_type := "问题反馈", priority := "普通", phenomenon := "暂无",
    summary := "暂无", problem_quote := "", first_problem_quote := "",
    last_discussion_quote := "", platform := "其他", client_version := "-",
    cbs_version := "-", image_id := "-" }

/-- `str(x or "-").strip() or "-"` for the version/image fields. -/
def normalizeVersionField (v : Option String) : String :=
  let s := pyStrip (pyOrStr v "-")
  if s = "" then "-" else s

/-- `analyze_complete_llm` (`ticket_service.py` lines 665-734). The chained
LLM invocation and JSON parse are the `llm` parameter: `.ok data` is a
successful call with parseable output, `.error ()` is any raised exception
(network error, model error, unparseable output). The Python function
returns a dict, which is falsy only when empty; `none` would model the
empty dict, and no branch produces it. -/
def analyze_complete_llm (text : String) (llm : Except Unit AnalysisRaw) :
    Option Analysis :=
  let src := (pyNormalizeWs text).take 1500
  if src = [] then some fallbackAnalysis
  else
    match llm with
    | .error _ => some fallbackAnalysis
    | .ok data =>
      some
        { issue_type := normalize_issue_type data.issue_type,
          priority := normalize_priority data.priority,
          phenomenon := pyTake (pyOrStr data.phenomenon "暂无") 30,
          summary := pyTake (pyOrStr data.summary "暂无") 50,
          problem_quote := pyTake (pyStrip (pyOrStr data.problem_quote "")) 60,
          first_problem_quote := pyTake (pyStrip (pyOrStr data.first_problem_quote "")) 60,
          last_discussion_quote := pyTake (pyStrip (pyOrStr data.last_discussion_quote "")) 60,
          platform := normalize_platform data.platform,
          client_version := normalizeVersionField data.client_version,
          cbs_version := normalizeVersionField data.cbs_version,
          image_id := normalizeVersionField data.image_id }

/-- How one qualifying room leaves the end-of-cycle sweep. -/
inductive SweepOutcome
  | noContext
  | preJudgeSkip
  | emptyAnalysisRetry
  | dupSkip
  | analyzed
deriving DecidableEq, Repr

/-- A room qualifies for the sweep (lines 1897-1903) when
`END_OF_CYCLE_MIN_MESSAGES <= pending_count < ROOM_MIN_MESSAGES_FOR_ANALYZE`
(defaults 2 and 5). -/
def sweepQualifies (endOfCycleMin roomMin : Int) (st : RoomState) : Prop :=
  endOfCycleMin ≤ st.pending_count ∧ st.pending_count < roomMin

/-- The per-room body of `run_end_of_cycle_analysis` (lines 1913-2004),
restricted to its effect on the room's counters. External interactions are
parameters: `context` is the history context (empty models the
no-context skip), `preJudgeHasIssue` the pre-judge verdict, `llm` the
classification call outcome, `dupOracle` the `_is_duplicate_issue` verdict
on the extracted phenomenon. The `emptyAnalysisRetry` branch is the
`if not pre_analysis:` guard (lines 1942-1948) that would keep the counters
for a retry. -/
def run_end_of_cycle_room (preJudgeEnabled : Bool) (st : RoomState)
    (context : String) (preJudgeHasIssue : Bool) (llm : Except Unit AnalysisRaw)
    (dupOracle : String → Bool) : RoomState × SweepOutcome :=
  if context = "" then (st, .noContext)
  else if preJudgeEnabled && !preJudgeHasIssue && st.raw_pending_count < 30 then
    ({ st with pending_count := 0, raw_pending_count := 0 }, .preJudgeSkip)
  else
    match analyze_complete_llm context llm with
    | none => (st, .emptyAnalysisRetry)
    | some a =>
      if dupOracle a.phenomenon then
        ({ st with pending_count := 0, raw_pending_count := 0 }, .dupSkip)
      else
        ({ st with pending_count := 0, raw_pending_count := 0 }, .analyzed)

/-! ## Helper lemmas -/

theorem extract_bigrams_of_short (p : String) (h : (strippedChars p).length < 2) :
    _extract_bigrams p = ∅ := by
  unfold _extract_bigrams
  match hc : strippedChars p with
  | [] => simp
  | [c] => simp
  | c1 :: c2 :: rest =>
    rw [hc] at h
    simp only [List.length_cons] at h
    omega

theorem natMin_comm (x y : Nat) : Nat.min x y = Nat.min y x := by
  simp only [Nat.min_def]
  split <;> split <;> omega

theorem compute_alert_level_eq_spec (sev : Option String) (risk : Int) :
    compute_alert_level sev risk = specLevelMapping sev risk := by
  unfold compute_alert_level specLevelMapping
  by_cases h90 : risk ≥ 90
  · simp [h90]
  · simp only [h90, if_false]
    cases sev with
    | none => simp
    | some s =>
      by_cases h4 : s = "S4"
      · simp [h4]
      · by_cases h3 : s = "S3"
        · simp [h3]
        · by_cases h2 : s = "S2"
          · simp [h2]
          · simp [h4, h3, h2]

theorem analyze_complete_llm_never_empty (text : String)
    (llm : Except Unit AnalysisRaw) :
    (analyze_complete_llm text llm).isSome = true := by
  cases llm <;> simp only [analyze_complete_llm] <;> split <;> rfl

theorem sim_pair1 : bigramSimilarity "云机不开机" "云机无法开机" = 1 / 2 := by
  have h1 : (_extract_bigrams "云机不开机" ∩ _extract_bigrams "云机无法开机").card = 2 := by decide
  have h2 : (_extract_bigrams "云机不开机" ∪ _extract_bigrams "云机无法开机").card = 7 := by decide
  have h3 : (_extract_bigrams "云机不开机").card = 4 := by decide
  have h4 : (_extract_bigrams "云机无法开机").card = 5 := by decide
  simp only [bigramSimilarity, h1, h2, h3, h4]
  norm_num [ratMax, Nat.min_def]

theorem sim_pair2 : bigramSimilarity "TikTok无网络" "批量启动云机失败" = 0 := by
  have h1 : (_extract_bigrams "TikTok无网络" ∩ _extract_bigrams "批量启动云机失败").card = 0 := by decide
  have h2 : (_extract_bigrams "TikTok无网络" ∪ _extract_bigrams "批量启动云机失败").card = 15 := by decide
  have h3 : (_extract_bigrams "TikTok无网络").card = 8 := by decide
  have h4 : (_extract_bigrams "批量启动云机失败").card = 7 := by decide
  simp only [bigramSimilarity, h1, h2, h3, h4]
  norm_num [ratMax, Nat.min_def]

theorem stageA_pair1_false :
    stageAHit (7 / 10) "云机不开机" ⟨"r1", "云机无法开机"⟩ = false := by
  simp only [stageAHit, sim_pair1, ge_iff_le]
  simp
  intro _
  norm_num

theorem stageA_pair2_false :
    stageAHit (7 / 10) "TikTok无网络" ⟨"r1", "批量启动云机失败"⟩ = false := by
  simp only [stageAHit, sim_pair2, ge_iff_le]
  simp

theorem foldl_max_init_le (l : List Nat) (s : Nat) : s ≤ l.foldl max s := by
  induction l generalizing s with
  | nil => simp
  | cons x xs ih => exact le_trans (Nat.le_max_left s x) (ih (max s x))

theorem foldl_max_attained (l : List Nat) (s : Nat) :
    l.foldl max s = s ∨ l.foldl max s ∈ l := by
  induction l generalizing s with
  | nil => left; rfl
  | cons x xs ih =>
    rw [List.foldl_cons]
    rcases ih (max s x) with h | h
    · by_cases hx : x ≤ s
      · left
        rw [h]
        omega
      · right
        rw [h]
        have hmax : max s x = x := by omega
        rw [hmax]
        exact List.mem_cons_self x xs
    · right
      exact List.mem_cons_of_mem x h

theorem anchorLoop_spec (qc : List Char) (l : List MsgEntry) (b : Option String) (s : Nat) :
    anchorLoop qc l (b, s) =
      (if (l.map (anchorEffScore qc)).foldl max s = s then b
       else (l.find? fun m =>
          anchorEffScore qc m = (l.map (anchorEffScore qc)).foldl max s).map (·.msg_id),
       (l.map (anchorEffScore qc)).foldl max s) := by
  induction l generalizing b s with
  | nil => simp [anchorLoop]
  | cons m xs ih =>
    simp only [anchorLoop, List.map_cons, List.foldl_cons]
    by_cases hm : anchorEffScore qc m > s
    · rw [if_pos hm, ih (some m.msg_id) (anchorEffScore qc m)]
      have hmax : max s (anchorEffScore qc m) = anchorEffScore qc m := by omega
      simp only [hmax]
      have hinit := foldl_max_init_le (xs.map (anchorEffScore qc)) (anchorEffScore qc m)
      by_cases hM : (xs.map (anchorEffScore qc)).foldl max (anchorEffScore qc m)
          = anchorEffScore qc m
      · rw [if_pos hM, if_neg (by omega)]
        rw [List.find?_cons_of_pos _ (by simp [hM])]
        simp
      · rw [if_neg hM, if_neg (by omega)]
        rw [List.find?_cons_of_neg _ (by simp; omega)]
    · rw [if_neg hm, ih b s]
      have hmax : max s (anchorEffScore qc m) = s := by omega
      simp only [hmax]
      have hinit := foldl_max_init_le (xs.map (anchorEffScore qc)) s
      by_cases hM : (xs.map (anchorEffScore qc)).foldl max s = s
      · rw [if_pos hM, if_pos hM]
      · rw [if_neg hM, if_neg hM]
        rw [List.find?_cons_of_neg _ (by simp; omega)]

theorem dedup_single_after_miss (threshold : ℚ) (rid p : String) (t : TicketRec)
    (llm : Except Unit String) (hp : ¬ p = "") (hb : ¬ _extract_bigrams p = ∅)
    (hA : stageAHit threshold p t = false) :
    _is_duplicate_issue threshold rid p [t] llm =
      (let existing_phenomena :=
        (([t].filter fun tt => tt.room_id = rid).map (·.phenomenon)).filter (· ≠ "")
       if existing_phenomena ≠ [] then _ai_dedup_check llm p existing_phenomena
       else (false, false)) := by
  unfold _is_duplicate_issue
  rw [if_neg hp, if_neg (by simp : ¬ ([t] : List TicketRec) = []), if_neg hb,
    if_neg (by simp [hA] : ¬ ([t].any (stageAHit threshold p) = true))]

/-! ## Claim theorems -/

/-- C7: the computed level is P0 when risk_score ≥ 90, else P0 for S4, P1
for S3, P2 for S2, P3 otherwise; and an ineligible call (no alert flag,
severity outside S2/S3/S4, and not a bug with risk ≥ 80) creates no event,
sends nothing, and leaves the stored row untouched. -/
theorem C7_level_mapping_and_gate (s : AlertSettings) (now : Int) (rid : String)
    (sev : Option String) (risk : Int) (a b : Bool) (latest : Option AlertEvent) :
    (should_send_alert s now rid sev risk a b latest).level = specLevelMapping sev risk ∧
      (alertEligible sev risk a b = false →
        (should_send_alert s now rid sev risk a b latest).sent = false ∧
          (should_send_alert s now rid sev risk a b latest).event = none ∧
          (should_send_alert s now rid sev risk a b latest).row = latest) := by
  constructor
  · rw [← compute_alert_level_eq_spec]
    simp only [should_send_alert]
    split
    · rfl
    · split
      · rfl
      · split
        · rfl
        · split
          · split
            · split <;> rfl
            · rfl
          · split <;> rfl
  · intro hgate
    simp [should_send_alert, hgate]

/-- C7 witness: a concrete ineligible call (severity S1, risk 50, no
flags) computes level P3 and neither creates an event nor sends. -/
theorem C7_witness :
    (should_send_alert defaultAlertSettings 0 "r" (some "S1") 50 false false none).level
        = specLevelMapping (some "S1") 50 ∧
      (should_send_alert defaultAlertSettings 0 "r" (some "S1") 50 false false none).sent = false ∧
      (should_send_alert defaultAlertSettings 0 "r" (some "S1") 50 false false none).event = none ∧
      (should_send_alert defaultAlertSettings 0 "r" (some "S1") 50 false false none).row = none := by
  have h := C7_level_mapping_and_gate defaultAlertSettings 0 "r" (some "S1") 50 false false none
  exact ⟨h.1, h.2 (by decide)⟩

/-- C8 counterexample: the claim asserts similarity(A,A) = 1.0 for every
phenomenon string, but a string whose stripped form has fewer than 2
characters has an empty bigram set and self-similarity 0. -/
theorem C8_counterexample : ¬ bigramSimilarity "云" "云" = 1 := by decide

/-- C8 amended: the bigram similarity is symmetric for all strings, and
similarity(A,A) = 1.0 for every string whose bigram set is nonempty (at
least 2 characters after stripping punctuation and whitespace). -/
theorem C8_amended :
    (∀ a b : String, bigramSimilarity a b = bigramSimilarity b a) ∧
      (∀ a : String, _extract_bigrams a ≠ ∅ → bigramSimilarity a a = 1) := by
  constructor
  · intro a b
    simp only [bigramSimilarity]
    rw [Finset.inter_comm, Finset.union_comm, natMin_comm]
  · intro a ha
    have hcard : 0 < (_extract_bigrams a).card :=
      Finset.card_pos.mpr (Finset.nonempty_iff_ne_empty.mpr ha)
    have hne : ((_extract_bigrams a).card : ℚ) ≠ 0 := by
      exact_mod_cast Nat.pos_iff_ne_zero.mp hcard
    simp only [bigramSimilarity, Finset.inter_self, Finset.union_self, Nat.min_self,
      if_pos hcard, div_self hne, ratMax, if_pos (le_refl (1 : ℚ))]

/-- C8 witness: symmetry and self-similarity 1 at concrete strings. -/
theorem C8_witness :
    bigramSimilarity "云机" "云机" = 1 ∧
      bigramSimilarity "云机不开机" "云机无法开机"
        = bigramSimilarity "云机无法开机" "云机不开机" := by
  exact ⟨C8_amended.2 "云机" (by decide), C8_amended.1 "云机不开机" "云机无法开机"⟩

/-- C10: an empty phenomenon, a phenomenon whose stripped form has fewer
than 2 characters (empty bigram set), or an empty in-scope ticket list all
yield "not a duplicate" without ever invoking the Stage-B semantic LLM
check. -/
theorem C10_early_exit (threshold : ℚ) (rid p : String)
    (tickets : List TicketRec) (llm : Except Unit String)
    (h : p = "" ∨ (strippedChars p).length < 2 ∨ tickets = []) :
    _is_duplicate_issue threshold rid p tickets llm = (false, false) := by
  by_cases hp : p = ""
  · simp [_is_duplicate_issue, hp]
  · by_cases ht : tickets = []
    · simp [_is_duplicate_issue, hp, ht]
    · rcases h with h | h | h
      · exact absurd h hp
      · have hb := extract_bigrams_of_short p h
        simp [_is_duplicate_issue, hp, ht, hb]
      · exact absurd h ht

/-- C10 witness: a one-character phenomenon against a nonempty ticket list
and an LLM oracle that would answer YES still returns (no duplicate,
Stage B not invoked). -/
theorem C10_witness :
    _is_duplicate_issue (7/10) "r1" "云" [⟨"r1", "云机无法开机"⟩] (Except.ok "YES")
      = (false, false) := by
  exact C10_early_exit (7/10) "r1" "云" [⟨"r1", "云机无法开机"⟩] (Except.ok "YES")
    (Or.inr (Or.inl (by decide)))

/-- C1 counterexample: a stored event at level P0, last sent 60 seconds ago,
receives an eligible S2 classification (level P2) inside the dedup window;
the stored alert_level after the call is P2, a downgrade from P0. -/
theorem C1_counterexample :
    p0Event.alert_level = some Level.P0 ∧
      ((should_send_alert defaultAlertSettings 60 "r1" (some "S2") 0 true false
            (some p0Event)).row.map AlertEvent.alert_level)
        = some (some Level.P2) := by
  exact ⟨rfl, by decide⟩

/-- C1 amended: once an event's stored level is P0, a later eligible
classification for the same key overwrites the stored alert_level with the
newly computed (possibly lower) level whenever the call lands inside the
dedup window of a sent event, or while the event is unsent; the stored P0
survives only when the call falls outside the dedup window of a sent
event (or is ineligible, which touches nothing). -/
theorem C1_amended (s : AlertSettings) (now : Int) (rid : String)
    (sev : Option String) (risk : Int) (a b : Bool) (ev : AlertEvent)
    (h0 : ev.alert_level = some Level.P0)
    (helig : alertEligible sev risk a b = true) :
    (∀ t, ev.last_sent_at = some t →
      (now - t < dedup_window_seconds s (compute_alert_level sev risk) →
        ((should_send_alert s now rid sev risk a b (some ev)).row.map AlertEvent.alert_level)
          = some (some (compute_alert_level sev risk))) ∧
      (¬ now - t < dedup_window_seconds s (compute_alert_level sev risk) →
        (should_send_alert s now rid sev risk a b (some ev)).row = some ev)) ∧
    (ev.last_sent_at = none →
      ((should_send_alert s now rid sev risk a b (some ev)).row.map AlertEvent.alert_level)
        = some (some (compute_alert_level sev risk))) := by
  have hup : isUpgrade (compute_alert_level sev risk) ev = false := by
    simp [isUpgrade, h0, levelRank]
  constructor
  · intro t ht
    constructor
    · intro hw
      simp only [should_send_alert, helig, hup, ht, hw]
      simp only [not_true_eq_false, if_false, Bool.false_eq_true, if_true]
      split <;> simp
    · intro hw
      simp only [should_send_alert, helig, hup, ht]
      simp only [not_true_eq_false, if_false, Bool.false_eq_true]
      simp [hw]
  · intro ht
    simp only [should_send_alert, helig, hup, ht]
    simp only [not_true_eq_false, if_false, Bool.false_eq_true]
    split <;> simp

/-- C1 witness for the amended theorem: the concrete downgrade run of the
counterexample, obtained by applying the amended theorem. -/
theorem C1_amended_witness :
    p0Event.alert_level = some Level.P0 ∧
      alertEligible (some "S2") 0 true false = true ∧
      p0Event.last_sent_at = some 0 ∧
      (60 : Int) - 0 < dedup_window_seconds defaultAlertSettings (compute_alert_level (some "S2") 0) ∧
      ((should_send_alert defaultAlertSettings 60 "r1" (some "S2") 0 true false
            (some p0Event)).row.map AlertEvent.alert_level)
        = some (some (compute_alert_level (some "S2") 0)) := by
  refine ⟨rfl, by decide, rfl, by decide, ?_⟩
  exact ((C1_amended defaultAlertSettings 60 "r1" (some "S2") 0 true false p0Event rfl
    (by decide)).1 0 rfl).1 (by decide)

/-- C2: the claim says a classification failure in the end-of-cycle sweep
leaves the pending counters untouched for a retry. In the code,
`analyze_complete_llm` catches every exception and returns a non-empty
placeholder dict, so the sweep's `if not pre_analysis` retry branch is
unreachable and the counters of a qualifying room are zeroed even when the
classification call raises a network/model error. This theorem evaluates
the modelled sweep at that failing input. -/
theorem C2_sweep_zeroes_on_classification_error :
    sweepQualifies 2 5 ⟨0, 3, 3, 0, false⟩ ∧
      run_end_of_cycle_room true ⟨0, 3, 3, 0, false⟩ "云机无法开机" true (Except.error ())
          (fun _ => false)
        = (⟨0, 0, 0, 0, false⟩, SweepOutcome.analyzed) := by
  exact ⟨⟨by decide, by decide⟩, by decide⟩

/-- C3 counterexample: saving a room state whose `needs_flush` flag is set
and reloading it yields a different record: the flag is not persisted. -/
theorem C3_counterexample :
    _load_room_state (_save_room_state "r1" ⟨5, 1, 0, 0, true⟩) ≠ ⟨5, 1, 0, 0, true⟩ := by
  intro h
  have hflag := congrArg RoomState.needs_flush h
  simp [_load_room_state] at hflag

/-- C3 amended: save-then-reload restores the cursor and both pending
counters exactly, and `last_processed_at` whenever it carries at most
millisecond precision, but always comes back with `needs_flush = false`:
the flag (and the cooldown dict, which is a separate in-memory map never
written to the database) does not survive a crash. -/
theorem C3_amended (rid : String) (st : RoomState)
    (h : (st.last_processed_at * 1000).den = 1) :
    _load_room_state (_save_room_state rid st) = { st with needs_flush := false } := by
  obtain ⟨lm, pc, rc, lpa, nf⟩ := st
  simp only at h
  simp only [_save_room_state, _load_room_state, RoomState.mk.injEq, and_true, true_and]
  have hint : ((lpa * 1000).num : ℚ) = lpa * 1000 := by
    conv_rhs => rw [← Rat.num_div_den (lpa * 1000)]
    rw [h]
    simp
  have hfloor : ⌊lpa * 1000⌋ = (lpa * 1000).num := by
    rw [← hint]
    exact Int.floor_intCast _
  rw [hfloor, hint]
  rw [mul_div_assoc]
  norm_num

/-- C3 witness for the amended theorem: a concrete state whose timestamp is
integral round-trips exactly apart from the dropped flag. -/
theorem C3_amended_witness :
    ((⟨5, 1, 0, 3, false⟩ : RoomState).last_processed_at * 1000).den = 1 ∧
      _load_room_state (_save_room_state "r1" ⟨5, 1, 0, 3, false⟩) = ⟨5, 1, 0, 3, false⟩ := by
  have hden : ((3 : ℚ) * 1000).den = 1 := by
    have h3 : (3 : ℚ) * 1000 = ((3000 : ℤ) : ℚ) := by norm_num
    rw [h3, Rat.den_intCast]
  exact ⟨hden, C3_amended "r1" ⟨5, 1, 0, 3, false⟩ hden⟩

/-- C4 counterexample: with the default thresholds (high-risk minimum 3,
effective 5, raw 15), a room 1 minute into a 10-minute cooldown whose
buffer contains a high-risk keyword but only 2 effective messages and 15
raw messages triggers nothing in the code, while the claim's ordered
cases (cooldown blocks only when no keyword is present) would fire the
raw-volume trigger. -/
theorem C4_counterexample :
    _is_in_cooldown 60 0 600 = true ∧
      triggerDecision defaultTriggerConfig true true 2 15 = none ∧
      claimTriggerDecision defaultTriggerConfig true true 2 15 = some TriggerReason.rawVolume := by
  refine ⟨?_, by decide, by decide⟩
  simp only [_is_in_cooldown, decide_eq_true_eq]
  norm_num

/-- C4 amended: the high-risk path (keyword present and pending_count at
the high-risk minimum) triggers even in cooldown; in cooldown no other
path triggers, keyword or not; out of cooldown, pending_count at the
effective threshold fires effective-volume, else raw_pending_count at the
raw threshold fires raw-volume, else nothing fires. -/
theorem C4_amended (cfg : TriggerConfig) (k c : Bool) (p r : Int) :
    triggerDecision cfg k c p r = amendedTriggerDecision cfg k c p r := by
  unfold triggerDecision amendedTriggerDecision
  cases c <;> cases k <;> simp

/-- C5 counterexample: at threshold 0.7 the duplicate detector does not
judge 云机不开机 a duplicate of the in-scope 云机无法开机 — the bigram
stage scores only 0.5 and the Stage-B fallback is fail-open, so a failed
LLM call leaves the verdict "not a duplicate". -/
theorem C5_counterexample :
    (_is_duplicate_issue (7 / 10) "r1" "云机不开机" [⟨"r1", "云机无法开机"⟩]
        (Except.error ())).1 = false := by
  rw [dedup_single_after_miss (7 / 10) "r1" _ _ _ (by decide) (by decide) stageA_pair1_false]
  decide

/-- C5 amended: the deterministic bigram stage scores the pair
(云机不开机, 云机无法开机) at similarity 1/2, below the 0.7 threshold, so
it is not an algorithmic duplicate; the Stage-B semantic check is reached
(a same-room ticket exists) and the verdict is YES-answer dependent:
duplicate when the LLM answers YES, not a duplicate on failure. The pair
(TikTok无网络, 批量启动云机失败) has similarity 0 and is not a duplicate
with a NO answer. -/
theorem C5_amended :
    bigramSimilarity "云机不开机" "云机无法开机" = 1 / 2 ∧
      (1 : ℚ) / 2 < 7 / 10 ∧
      _is_duplicate_issue (7 / 10) "r1" "云机不开机" [⟨"r1", "云机无法开机"⟩]
          (Except.ok "YES") = (true, true) ∧
      _is_duplicate_issue (7 / 10) "r1" "云机不开机" [⟨"r1", "云机无法开机"⟩]
          (Except.error ()) = (false, true) ∧
      bigramSimilarity "TikTok无网络" "批量启动云机失败" = 0 ∧
      _is_duplicate_issue (7 / 10) "r1" "TikTok无网络" [⟨"r1", "批量启动云机失败"⟩]
          (Except.ok "NO") = (false, true) := by
  refine ⟨sim_pair1, by norm_num, ?_, ?_, sim_pair2, ?_⟩
  · rw [dedup_single_after_miss (7 / 10) "r1" _ _ _ (by decide) (by decide) stageA_pair1_false]
    decide
  · rw [dedup_single_after_miss (7 / 10) "r1" _ _ _ (by decide) (by decide) stageA_pair1_false]
    decide
  · rw [dedup_single_after_miss (7 / 10) "r1" _ _ _ (by decide) (by decide) stageA_pair2_false]
    decide

/-- C9: on a cycle rollover, a room with pending work above the low safety
threshold (pending ≥ 2 or raw ≥ 5) is marked needs_flush with both
counters preserved; any other (unflagged) room has both counters zeroed;
every room's cursor is advanced to the new cycle start and every room's
post-rollover state is written to the database before the handler
returns. -/
theorem C9_rollover (cyc : Int) (states : List (String × RoomState))
    (rid : String) (st : RoomState)
    (hmem : (rid, st) ∈ states) (hnf : st.needs_flush = false) :
    ∃ st', (rid, st') ∈ (_check_and_reset_cycle cyc states).1 ∧
      _save_room_state rid st' ∈ (_check_and_reset_cycle cyc states).2 ∧
      st'.last_msgtime = cyc ∧
      (st.pending_count ≥ 2 ∨ st.raw_pending_count ≥ 5 →
        st'.needs_flush = true ∧ st'.pending_count = st.pending_count ∧
          st'.raw_pending_count = st.raw_pending_count) ∧
      (¬ (st.pending_count ≥ 2 ∨ st.raw_pending_count ≥ 5) →
        st'.pending_count = 0 ∧ st'.raw_pending_count = 0 ∧ st'.needs_flush = false) := by
  refine ⟨rolloverAdvance cyc (rolloverMark st), ?_, ?_, ?_, ?_, ?_⟩
  · simp only [_check_and_reset_cycle]
    exact List.mem_map_of_mem _ hmem
  · simp only [_check_and_reset_cycle]
    exact List.mem_map_of_mem _ (List.mem_map_of_mem _ hmem)
  · by_cases hth : st.pending_count ≥ 2 ∨ st.raw_pending_count ≥ 5 <;>
      simp [rolloverMark, rolloverAdvance, hth, hnf]
  · intro hth
    simp [rolloverMark, rolloverAdvance, hth]
  · intro hth
    simp [rolloverMark, rolloverAdvance, hth, hnf]

/-- C9 witness: a two-room rollover — one room above the safety threshold
is flagged with counters kept, applied at a concrete state via the
theorem. -/
theorem C9_rollover_witness :
    ∃ st', ("r1", st') ∈ (_check_and_reset_cycle 999 [("r1", ⟨0, 3, 4, 0, false⟩)]).1 ∧
      _save_room_state "r1" st' ∈ (_check_and_reset_cycle 999 [("r1", ⟨0, 3, 4, 0, false⟩)]).2 ∧
      st'.last_msgtime = 999 ∧
      ((⟨0, 3, 4, 0, false⟩ : RoomState).pending_count ≥ 2 ∨
          (⟨0, 3, 4, 0, false⟩ : RoomState).raw_pending_count ≥ 5 →
        st'.needs_flush = true ∧
          st'.pending_count = (⟨0, 3, 4, 0, false⟩ : RoomState).pending_count ∧
          st'.raw_pending_count = (⟨0, 3, 4, 0, false⟩ : RoomState).raw_pending_count) ∧
      (¬ ((⟨0, 3, 4, 0, false⟩ : RoomState).pending_count ≥ 2 ∨
          (⟨0, 3, 4, 0, false⟩ : RoomState).raw_pending_count ≥ 5) →
        st'.pending_count = 0 ∧ st'.raw_pending_count = 0 ∧ st'.needs_flush = false) := by
  exact C9_rollover 999 [("r1", ⟨0, 3, 4, 0, false⟩)] "r1" ⟨0, 3, 4, 0, false⟩
    (List.mem_singleton.mpr rfl) rfl

/-- C6 counterexample: the claim scores containment in either direction as
100 plus the overlap, but the code scores a candidate contained in the
quote as 80 plus the overlap. With quote "ab cd ef gh ij kl mn op qr st",
candidate m1 = "ab cd ef" (contained in the quote, code 88 vs claimed 108)
and candidate m2 sharing ten tokens (score 100 either way), the code
resolver picks m2 while the claim's scoring picks m1. -/
theorem C6_counterexample :
    _find_best_anchor_msg
        [⟨"m1", "ab cd ef"⟩,
         ⟨"m2", "ab qq cd ww ef ee gh rr ij tt kl yy mn uu op ii qr oo st"⟩]
        "ab cd ef gh ij kl mn op qr st" = some "m2" ∧
      argmaxResolve claimAnchorScore
        [⟨"m1", "ab cd ef"⟩,
         ⟨"m2", "ab qq cd ww ef ee gh rr ij tt kl yy mn uu op ii qr oo st"⟩]
        "ab cd ef gh ij kl mn op qr st" = some "m1" := by
  exact ⟨by decide, by decide⟩

/-- C6 amended: the resolver scores quote-in-candidate containment as
100 + len(quote), candidate-in-quote containment as 80 + len(candidate),
else 10 per shared token of length at least 2; the highest score wins with
ties to the earliest candidate, and an empty or too-short quote or an
all-zero scoreboard falls back to the oldest candidate. Stated as: the
scanning loop equals the explicit argmax-with-earliest-tie selection over
`anchorScore`. -/
theorem C6_amended (l : List MsgEntry) (q : String) :
    _find_best_anchor_msg l q = argmaxResolve anchorScore l q := by
  simp only [_find_best_anchor_msg, argmaxResolve]
  by_cases hl : l = []
  · simp [hl]
  · rw [if_neg hl, if_neg hl]
    by_cases hq : q = ""
    · simp [hq]
    · rw [if_neg hq, if_neg hq]
      by_cases hlen : (charListLower (charListTrim q.toList)).length < 5
      · rw [if_pos hlen, if_pos hlen]
      · rw [if_neg hlen, if_neg hlen]
        have heff : ∀ m : MsgEntry,
            (if charListLower m.content.toList = [] then 0
             else anchorScore (charListLower (charListTrim q.toList))
               (charListLower m.content.toList))
            = anchorEffScore (charListLower (charListTrim q.toList)) m := by
          intro m
          simp [anchorEffScore]
        simp only [heff]
        rw [anchorLoop_spec]
        set qc := charListLower (charListTrim q.toList)
        set M := (l.map (anchorEffScore qc)).foldl max 0 with hMdef
        by_cases hM : M = 0
        · simp [hM]
        · have hmem : M ∈ l.map (anchorEffScore qc) :=
            (foldl_max_attained (l.map (anchorEffScore qc)) 0).resolve_left hM
          obtain ⟨m, hmL, hfm⟩ := List.mem_map.mp hmem
          have hfind : (l.find? fun x => anchorEffScore qc x = M).isSome := by
            rw [List.find?_isSome]
            exact ⟨m, hmL, by simp [hfm]⟩
          obtain ⟨mm, hmm⟩ := Option.isSome_iff_exists.mp hfind
          simp [hM, hmm]

end WecomAI
